import Mathlib

/-!
Verification development for the OloEQ filter-chain engine.

The definitions below are a shallow embedding of the sources:
`Source/PluginProcessor.h` (Slope, ChainSettings, updateCutFilter,
makeLowCutFilter / makeHighCutFilter order arguments),
the processor implementation (processBlock, updateFilters and its helpers,
getChainSettings parameter defaults) and
`Source/PluginEditor.cpp` (ResponseCurveComponent: parameterValueChanged,
timerCallback, paint).  Machine floats are modelled as exact rationals;
the JUCE library routines that are not part of this repository (the
Butterworth design routine, the IIR biquad difference equation, the
per-stage magnitude evaluation, `Decibels::gainToDecibels` and the
`ProcessorChain` bypass semantics) are modelled from the spec, as noted
on each definition.
-/

namespace OloEQ

/-- Filter slope options, from the `Slope` enum in PluginProcessor.h. -/
inductive Slope
  | Slope_12
  | Slope_24
  | Slope_36
  | Slope_48
  deriving DecidableEq

/-- Ordinal value of the slope enum (the C++ enumerators have values 0..3). -/
def Slope.toNat : Slope → Nat
  | .Slope_12 => 0
  | .Slope_24 => 1
  | .Slope_36 => 2
  | .Slope_48 => 3

/-- All chain settings, from `struct ChainSettings` in PluginProcessor.h.
Float parameters are modelled as exact rationals. -/
structure ChainSettings where
  peakFreq : ℚ
  peakGainInDecibels : ℚ
  peakQuality : ℚ
  lowCutFreq : ℚ
  highCutFreq : ℚ
  lowCutSlope : Slope
  highCutSlope : Slope
  deriving DecidableEq

/-- Default parameter values, from `createParameterLayout` in the processor
implementation (LowCut Freq 20, HighCut Freq 20000, Peak Freq 750,
Peak Gain 0, Peak Quality 1, both slope choices at ordinal 0). -/
def defaultSettings : ChainSettings :=
  { peakFreq := 750
    peakGainInDecibels := 0
    peakQuality := 1
    lowCutFreq := 20
    highCutFreq := 20000
    lowCutSlope := Slope.Slope_12
    highCutSlope := Slope.Slope_12 }

/-- Coefficient set of one second-order IIR section (normalized so a0 = 1).
The JUCE coefficient objects hold these five numbers; modelled as exact
rationals. -/
structure BiquadCoeffs where
  b0 : ℚ
  b1 : ℚ
  b2 : ℚ
  a1 : ℚ
  a2 : ℚ
  deriving DecidableEq

/-- Identity (pass-through) coefficient set, used as a concrete default. -/
def BiquadCoeffs.identity : BiquadCoeffs := ⟨1, 0, 0, 0, 0⟩

/-- Configuration of one `CutFilter` (a `ProcessorChain` of 4 IIR filters):
the coefficients of each stage together with the per-stage bypass flag of
the chain.  From the `CutFilter` alias in PluginProcessor.h. -/
structure CutConfig where
  c0 : BiquadCoeffs
  c1 : BiquadCoeffs
  c2 : BiquadCoeffs
  c3 : BiquadCoeffs
  byp0 : Bool
  byp1 : Bool
  byp2 : Bool
  byp3 : Bool
  deriving DecidableEq

/-- Stage coefficients of a cut chain, indexed (mirrors `get<Index>()`). -/
def CutConfig.coeffAt (ch : CutConfig) (i : Fin 4) : BiquadCoeffs :=
  if i.val = 0 then ch.c0
  else if i.val = 1 then ch.c1
  else if i.val = 2 then ch.c2
  else ch.c3

/-- Stage bypass flags of a cut chain, indexed (mirrors `isBypassed<Index>()`). -/
def CutConfig.bypAt (ch : CutConfig) (i : Fin 4) : Bool :=
  if i.val = 0 then ch.byp0
  else if i.val = 1 then ch.byp1
  else if i.val = 2 then ch.byp2
  else ch.byp3

/-- Default cut chain: identity coefficients, no stage bypassed
(a default-constructed `ProcessorChain` has all bypass flags false). -/
def defaultCutConfig : CutConfig :=
  ⟨BiquadCoeffs.identity, BiquadCoeffs.identity, BiquadCoeffs.identity,
   BiquadCoeffs.identity, false, false, false, false⟩

/-- The opening of `updateCutFilter`: `setBypassed<0..3>(true)`. -/
def bypassAll (ch : CutConfig) : CutConfig :=
  { ch with byp0 := true, byp1 := true, byp2 := true, byp3 := true }

/-- `update<0>`: replace stage 0 coefficients and clear its bypass flag. -/
def update0 (ch : CutConfig) (coefficients : Fin 4 → BiquadCoeffs) : CutConfig :=
  { ch with c0 := coefficients 0, byp0 := false }

/-- `update<1>`: replace stage 1 coefficients and clear its bypass flag. -/
def update1 (ch : CutConfig) (coefficients : Fin 4 → BiquadCoeffs) : CutConfig :=
  { ch with c1 := coefficients 1, byp1 := false }

/-- `update<2>`: replace stage 2 coefficients and clear its bypass flag. -/
def update2 (ch : CutConfig) (coefficients : Fin 4 → BiquadCoeffs) : CutConfig :=
  { ch with c2 := coefficients 2, byp2 := false }

/-- `update<3>`: replace stage 3 coefficients and clear its bypass flag. -/
def update3 (ch : CutConfig) (coefficients : Fin 4 → BiquadCoeffs) : CutConfig :=
  { ch with c3 := coefficients 3, byp3 := false }

/-- `updateCutFilter` from PluginProcessor.h: bypass all four stages, then
the fallthrough switch enables (and loads) stages `slope.toNat` down to 0. -/
def updateCutFilter (ch : CutConfig) (coefficients : Fin 4 → BiquadCoeffs)
    (slope : Slope) : CutConfig :=
  let chb := bypassAll ch
  match slope with
  | .Slope_48 => update0 (update1 (update2 (update3 chb coefficients) coefficients) coefficients) coefficients
  | .Slope_36 => update0 (update1 (update2 chb coefficients) coefficients) coefficients
  | .Slope_24 => update0 (update1 chb coefficients) coefficients
  | .Slope_12 => update0 chb coefficients

/-- Order argument handed to the JUCE Butterworth design routine by
`makeLowCutFilter` and `makeHighCutFilter`:
`2 * chainSettings.lowCutSlope + 1` (C precedence: `(2*slope)+1`). -/
def cutOrderArg (slope : Slope) : Nat := 2 * slope.toNat + 1

/-- The order the spec claims for the cut-band cascade:
`2 × (slope ordinal + 1)` poles. -/
def specCutOrder (slopeOrdinal : Nat) : Nat := 2 * (slopeOrdinal + 1)

/-- Slope labels built in `createParameterLayout`:
`juce::String(12 + i * 12) + " db/Oct"` for choice ordinal i. -/
def slopeChoiceDb (i : Nat) : Nat := 12 + i * 12

/-- Modelled from the spec: the JUCE routine
`designIIRLowpassHighOrderButterworthMethod` (library code, not in this
repository) produces a Butterworth lowpass of the requested order n, whose
composite squared magnitude at frequency ratio r = f / fc is
1 / (1 + r^(2n)). -/
def butterworthLowpassMagSq (n : Nat) (r : ℚ) : ℚ := 1 / (1 + r ^ (2 * n))

/-- Modelled from the spec: a Butterworth highpass of order n (the
`designIIRHighpassHighOrderButterworthMethod` library routine) has composite
squared magnitude r^(2n) / (1 + r^(2n)) at frequency ratio r = f / fc. -/
def butterworthHighpassMagSq (n : Nat) (r : ℚ) : ℚ :=
  r ^ (2 * n) / (1 + r ^ (2 * n))

/-- Configuration of one `MonoChain`
(`ProcessorChain<CutFilter, Filter, CutFilter>`): low-cut cascade, peak
stage (with its chain bypass flag, false by default and never set by the
code), high-cut cascade. -/
structure MonoConfig where
  lowCut : CutConfig
  peak : BiquadCoeffs
  peakByp : Bool
  highCut : CutConfig
  deriving DecidableEq

/-- Default-constructed mono chain: both chains of the processor and the
editor's visualization chain start in this identical configuration. -/
def defaultMonoConfig : MonoConfig :=
  ⟨defaultCutConfig, BiquadCoeffs.identity, false, defaultCutConfig⟩

/-- Linear magnitude accumulated by one iteration of the paint loop of
`ResponseCurveComponent::paint`: `mag` starts at 1.0 and each stage whose
bypass flag is clear multiplies in its magnitude, in the source's order
(peak, low-cut 0..3, high-cut 0..3).  The per-stage magnitudes (library
evaluations of `getMagnitudeForFrequency` at the pixel's frequency) are
supplied as inputs. -/
def chainLinearMag (cfg : MonoConfig) (peakMag : ℚ) (lowMag highMag : Fin 4 → ℚ) : ℚ :=
  let m0 : ℚ := 1
  let m1 := if cfg.peakByp then m0 else m0 * peakMag
  let m2 := if cfg.lowCut.byp0 then m1 else m1 * lowMag 0
  let m3 := if cfg.lowCut.byp1 then m2 else m2 * lowMag 1
  let m4 := if cfg.lowCut.byp2 then m3 else m3 * lowMag 2
  let m5 := if cfg.lowCut.byp3 then m4 else m4 * lowMag 3
  let m6 := if cfg.highCut.byp0 then m5 else m5 * highMag 0
  let m7 := if cfg.highCut.byp1 then m6 else m6 * highMag 1
  let m8 := if cfg.highCut.byp2 then m7 else m7 * highMag 2
  if cfg.highCut.byp3 then m8 else m8 * highMag 3

/-- The spec's description of the same quantity: the product of the
magnitudes of exactly the non-bypassed stages, every bypassed stage
contributing the factor 1. -/
def specChainLinearMag (cfg : MonoConfig) (peakMag : ℚ) (lowMag highMag : Fin 4 → ℚ) : ℚ :=
  (if cfg.peakByp then 1 else peakMag)
    * (∏ i : Fin 4, if cfg.lowCut.bypAt i then 1 else lowMag i)
    * (∏ i : Fin 4, if cfg.highCut.bypAt i then 1 else highMag i)

/-- Modelled from the spec: `juce::Decibels::gainToDecibels` is library
code (not in this repository); per the spec it converts a linear gain with
20·log10 and clamps at the library's minus-infinity floor of -100 dB for
non-positive or tiny gains.  The log10 function on exact rationals is a
parameter. -/
def gainToDecibels (log10 : ℚ → ℚ) (gain : ℚ) : ℚ :=
  if 0 < gain then max (-100) (20 * log10 gain) else -100

/-- Decibel value produced for one pixel of the response curve:
`Decibels::gainToDecibels(mag)` applied to the accumulated linear
magnitude, as at the end of the paint loop. -/
def evaluateResponseDb (log10 : ℚ → ℚ) (cfg : MonoConfig) (peakMag : ℚ)
    (lowMag highMag : Fin 4 → ℚ) : ℚ :=
  gainToDecibels log10 (chainLinearMag cfg peakMag lowMag highMag)

/-- Contribution of one stage to the response magnitude: a bypassed stage
contributes the factor 1, an enabled one its magnitude (the gating pattern
of the paint loop). -/
def magFactor (byp : Bool) (m : ℚ) : ℚ := if byp then 1 else m

/-- Modelled from the spec: one step of the second-order direct-form
difference equation of the JUCE IIR filter (direct form II transposed,
library code not in this repository).  Takes the two-sample history and an
input sample, returns the output sample and the new history. -/
def biquadStep (c : BiquadCoeffs) (s : ℚ × ℚ) (x : ℚ) : ℚ × (ℚ × ℚ) :=
  let y := c.b0 * x + s.1
  (y, (c.b1 * x - c.a1 * y + s.2, c.b2 * x - c.a2 * y))

/-- Modelled from the spec: `ProcessorChain` runs a member only when its
bypass flag is clear; a bypassed member passes the sample through
unchanged and leaves its filter history untouched. -/
def runStage (byp : Bool) (c : BiquadCoeffs) (st : ℚ × ℚ) (x : ℚ) : ℚ × (ℚ × ℚ) :=
  if byp then (x, st) else biquadStep c st x

/-- Delay-line histories of the four stages of a cut chain. -/
structure CutState where
  d0 : ℚ × ℚ
  d1 : ℚ × ℚ
  d2 : ℚ × ℚ
  d3 : ℚ × ℚ
  deriving DecidableEq

/-- One sample through a cut cascade: the four stages in order, each
skipped when bypassed. -/
def cutProcessSample (cfg : CutConfig) (st : CutState) (x : ℚ) : ℚ × CutState :=
  let r0 := runStage cfg.byp0 cfg.c0 st.d0 x
  let r1 := runStage cfg.byp1 cfg.c1 st.d1 r0.1
  let r2 := runStage cfg.byp2 cfg.c2 st.d2 r1.1
  let r3 := runStage cfg.byp3 cfg.c3 st.d3 r2.1
  (r3.1, ⟨r0.2, r1.2, r2.2, r3.2⟩)

/-- Delay-line histories of one mono chain. -/
structure MonoState where
  low : CutState
  peakD : ℚ × ℚ
  high : CutState
  deriving DecidableEq

/-- One sample through a mono chain: low cut, then peak, then high cut. -/
def monoProcessSample (cfg : MonoConfig) (st : MonoState) (x : ℚ) : ℚ × MonoState :=
  let rl := cutProcessSample cfg.lowCut st.low x
  let rp := runStage cfg.peakByp cfg.peak st.peakD rl.1
  let rh := cutProcessSample cfg.highCut st.high rp.1
  (rh.1, ⟨rl.2, rp.2, rh.2⟩)

/-- A block of samples through a mono chain (the single-channel
`chain.process(context)` call), returning the processed samples and the
final filter state. -/
def monoProcessBlock (cfg : MonoConfig) : MonoState → List ℚ → List ℚ × MonoState
  | st, [] => ([], st)
  | st, x :: xs =>
    let r := monoProcessSample cfg st x
    let rest := monoProcessBlock cfg r.2 xs
    (r.1 :: rest.1, rest.2)

/-- Modelled from the spec: the coefficient factories (`makePeakFilter`
and the two JUCE Butterworth design calls) are pure functions of the
settings and the sample rate; their numeric internals are library trigon-
ometry, so they are abstracted as parameters here.  A cut factory returns
one coefficient set per cascade stage. -/
structure CoeffFactories where
  makePeak : ChainSettings → ℚ → BiquadCoeffs
  makeLowCut : ChainSettings → ℚ → Fin 4 → BiquadCoeffs
  makeHighCut : ChainSettings → ℚ → Fin 4 → BiquadCoeffs

/-- Concrete factories (identity coefficients) used as witnesses. -/
def constFactories : CoeffFactories :=
  ⟨fun _ _ => BiquadCoeffs.identity,
   fun _ _ _ => BiquadCoeffs.identity,
   fun _ _ _ => BiquadCoeffs.identity⟩

/-- Body of the flagged branch of
`ResponseCurveComponent::timerCallback`: install the peak coefficients,
then run `updateCutFilter` on the low-cut and the high-cut cascades. -/
def timerCallbackBody (F : CoeffFactories) (s : ChainSettings) (sr : ℚ)
    (m : MonoConfig) : MonoConfig :=
  let m1 := { m with peak := F.makePeak s sr }
  let m2 := { m1 with lowCut := updateCutFilter m1.lowCut (F.makeLowCut s sr) s.lowCutSlope }
  { m2 with highCut := updateCutFilter m2.highCut (F.makeHighCut s sr) s.highCutSlope }

/-- State of the editor's response-curve component: the
`parametersChanged` atomic flag and its private `monoChain`. -/
structure VisCoordinator where
  parametersChanged : Bool
  monoChain : MonoConfig
  deriving DecidableEq

/-- `ResponseCurveComponent::parameterValueChanged`: sets the flag. -/
def parameterValueChanged (v : VisCoordinator) : VisCoordinator :=
  { v with parametersChanged := true }

/-- `ResponseCurveComponent::timerCallback`:
`parametersChanged.compareAndSetBool(false, true)` atomically clears the
flag and reports whether it was set; only then is a fresh snapshot read
and the chain updated.  The returned Boolean records whether coefficients
were rebuilt and installed on this tick. -/
def timerCallback (F : CoeffFactories) (s : ChainSettings) (sr : ℚ)
    (v : VisCoordinator) : VisCoordinator × Bool :=
  if v.parametersChanged then
    (⟨false, timerCallbackBody F s sr v.monoChain⟩, true)
  else
    (v, false)

/-- `updateLowCutFilters`: one coefficient set is computed and
`updateCutFilter` is applied to the low-cut cascade of both chains. -/
def updateLowCutFilters (F : CoeffFactories) (s : ChainSettings) (sr : ℚ)
    (l r : MonoConfig) : MonoConfig × MonoConfig :=
  let lowCutCoefficients := F.makeLowCut s sr
  ({ l with lowCut := updateCutFilter l.lowCut lowCutCoefficients s.lowCutSlope },
   { r with lowCut := updateCutFilter r.lowCut lowCutCoefficients s.lowCutSlope })

/-- `updatePeakFilter`: one peak coefficient set installed into both
chains via `updateCoefficients`. -/
def updatePeakFilter (F : CoeffFactories) (s : ChainSettings) (sr : ℚ)
    (l r : MonoConfig) : MonoConfig × MonoConfig :=
  let peakCoefficients := F.makePeak s sr
  ({ l with peak := peakCoefficients }, { r with peak := peakCoefficients })

/-- `updateHighCutFilters`: one coefficient set applied to the high-cut
cascade of both chains. -/
def updateHighCutFilters (F : CoeffFactories) (s : ChainSettings) (sr : ℚ)
    (l r : MonoConfig) : MonoConfig × MonoConfig :=
  let highCutCoefficients := F.makeHighCut s sr
  ({ l with highCut := updateCutFilter l.highCut highCutCoefficients s.highCutSlope },
   { r with highCut := updateCutFilter r.highCut highCutCoefficients s.highCutSlope })

/-- `OloEQAudioProcessor::updateFilters`: reads one settings snapshot and
updates low cut, peak, high cut of both chains from it, in that order. -/
def updateFilters (F : CoeffFactories) (s : ChainSettings) (sr : ℚ)
    (l r : MonoConfig) : MonoConfig × MonoConfig :=
  let p1 := updateLowCutFilters F s sr l r
  let p2 := updatePeakFilter F s sr p1.1 p1.2
  updateHighCutFilters F s sr p2.1 p2.2

/-- The coefficient-update step performed at each audio-block boundary:
`processBlock` calls `updateFilters()` unconditionally on every block (the
processor has no dirty flag).  The Boolean records whether coefficients
were rebuilt and installed on this tick; it is always true. -/
def audioBlockTick (F : CoeffFactories) (s : ChainSettings) (sr : ℚ)
    (l r : MonoConfig) : (MonoConfig × MonoConfig) × Bool :=
  (updateFilters F s sr l r, true)

/-- A sequence of `updateFilters` calls (every mutation of the chain
configurations in the program: prepareToPlay, processBlock and
setStateInformation all go through `updateFilters`), applied to a pair of
chain configurations. -/
def applyUpdateTrace (F : CoeffFactories) :
    List (ChainSettings × ℚ) → MonoConfig × MonoConfig → MonoConfig × MonoConfig
  | [], p => p
  | a :: rest, p => applyUpdateTrace F rest (updateFilters F a.1 a.2 p.1 p.2)

/-- The channel-clearing loop at the top of `processBlock`: every output
channel whose index lies in [totalInputChannels, totalOutputChannels) is
cleared to silence; the first argument of the recursion is the index of
the first channel of the remaining list. -/
def clearExtraChannels (inCh outCh : Nat) : Nat → List (List ℚ) → List (List ℚ)
  | _, [] => []
  | i, ch :: rest =>
    (if inCh ≤ i ∧ i < outCh then List.replicate ch.length 0 else ch)
      :: clearExtraChannels inCh outCh (i + 1) rest

/-- Processor state: the two chain configurations and their filter
histories (`leftChain` and `rightChain`). -/
structure ProcessorState where
  leftChain : MonoConfig
  rightChain : MonoConfig
  leftState : MonoState
  rightState : MonoState

/-- The filtering part of `processBlock`, run after the channel clearing:
`updateFilters()`, then channel 0 through the left chain and channel 1
through the right chain, each replaced in place. -/
def processBlockFilters (F : CoeffFactories) (s : ChainSettings) (sr : ℚ)
    (p : ProcessorState) (buffer : List (List ℚ)) : List (List ℚ) × ProcessorState :=
  let pair := updateFilters F s sr p.leftChain p.rightChain
  let o0 := monoProcessBlock pair.1 p.leftState (buffer.getD 0 [])
  let o1 := monoProcessBlock pair.2 p.rightState (buffer.getD 1 [])
  ((buffer.set 0 o0.1).set 1 o1.1, ⟨pair.1, pair.2, o0.2, o1.2⟩)

/-- `OloEQAudioProcessor::processBlock`: clear the extra output channels,
then update the filters and process the two channels dual-mono. -/
def processBlock (F : CoeffFactories) (s : ChainSettings) (sr : ℚ)
    (inCh outCh : Nat) (p : ProcessorState) (buffer : List (List ℚ)) :
    List (List ℚ) × ProcessorState :=
  processBlockFilters F s sr p (clearExtraChannels inCh outCh 0 buffer)

/-- The decibel samples computed by the paint loop of
`ResponseCurveComponent::paint` in Source/PluginEditor.cpp for a response
area of width w: one value per pixel column i with 0 ≤ i < w.  The
per-pixel per-stage linear magnitudes (library evaluations at the
mapToLog10-mapped frequency of column i) are supplied as inputs.  For
w ≤ 0 the loop body never runs and the sequence is empty. -/
def paintMags (log10 : ℚ → ℚ) (cfg : MonoConfig) (peakMagAt : Nat → ℚ)
    (lowMagAt highMagAt : Nat → Fin 4 → ℚ) (w : ℤ) : List ℚ :=
  (List.range w.toNat).map fun i =>
    evaluateResponseDb log10 cfg (peakMagAt i) (lowMagAt i) (highMagAt i)

/-- The guarded paint variant (the copy of
`ResponseCurveComponent::paint` carrying `if (w <= 0) return;`): for
w ≤ 0 it returns before computing or reading anything, producing no
decibel values at all. -/
def paintMagsGuarded (log10 : ℚ → ℚ) (cfg : MonoConfig) (peakMagAt : Nat → ℚ)
    (lowMagAt highMagAt : Nat → Fin 4 → ℚ) (w : ℤ) : List ℚ :=
  if w ≤ 0 then [] else paintMags log10 cfg peakMagAt lowMagAt highMagAt w

/-- Constant log10 stand-in used by witnesses. -/
def zeroLog : ℚ → ℚ := fun _ => 0

/-- Constant unit magnitudes used by witnesses. -/
def oneMags : Fin 4 → ℚ := fun _ => 1

/-- Distinct per-stage coefficient sets used by witnesses. -/
def sampleCoeffs : Fin 4 → BiquadCoeffs := fun i => ⟨(i.val : ℚ), 0, 0, 0, 0⟩

/-! Helper lemmas. -/

theorem updateCutFilter_bypAt (ch : CutConfig) (coefficients : Fin 4 → BiquadCoeffs)
    (slope : Slope) (i : Fin 4) :
    (updateCutFilter ch coefficients slope).bypAt i = decide (slope.toNat < i.val) := by
  cases slope <;> fin_cases i <;> rfl

theorem updateCutFilter_coeffAt (ch : CutConfig) (coefficients : Fin 4 → BiquadCoeffs)
    (slope : Slope) (i : Fin 4) :
    (updateCutFilter ch coefficients slope).coeffAt i =
      if i.val ≤ slope.toNat then coefficients i else ch.coeffAt i := by
  cases slope <;> fin_cases i <;> rfl

theorem bypAt_fin0 (ch : CutConfig) : ch.bypAt 0 = ch.byp0 := rfl

theorem bypAt_fin1 (ch : CutConfig) : ch.bypAt 1 = ch.byp1 := rfl

theorem bypAt_fin2 (ch : CutConfig) : ch.bypAt 2 = ch.byp2 := rfl

theorem bypAt_fin3 (ch : CutConfig) : ch.bypAt 3 = ch.byp3 := rfl

theorem gate_mul (b : Bool) (m x : ℚ) :
    (if b = true then m else m * x) = m * if b = true then 1 else x := by
  cases b <;> simp

theorem chainLinearMag_eq_spec (cfg : MonoConfig) (peakMag : ℚ)
    (lowMag highMag : Fin 4 → ℚ) :
    chainLinearMag cfg peakMag lowMag highMag
      = specChainLinearMag cfg peakMag lowMag highMag := by
  unfold chainLinearMag specChainLinearMag
  simp only [Fin.prod_univ_four, bypAt_fin0, bypAt_fin1, bypAt_fin2, bypAt_fin3,
    gate_mul]
  ring

theorem updateFilters_pair_eq (F : CoeffFactories) (s : ChainSettings) (sr : ℚ)
    (c : MonoConfig) :
    (updateFilters F s sr c c).1 = (updateFilters F s sr c c).2 := rfl

theorem clearExtraChannels_all_zero (inCh outCh : Nat) :
    ∀ (buffer : List (List ℚ)) (i c : Nat), inCh ≤ i + c → i + c < outCh →
      ∀ x ∈ (clearExtraChannels inCh outCh i buffer).getD c [], x = 0 := by
  intro buffer
  induction buffer with
  | nil =>
    intro i c _ _ x hx
    simp [clearExtraChannels] at hx
  | cons ch rest ih =>
    intro i c h1 h2 x hx
    cases c with
    | zero =>
      simp only [clearExtraChannels, List.getD_cons_zero] at hx
      rw [if_pos ⟨by omega, by omega⟩] at hx
      exact List.eq_of_mem_replicate hx
    | succ c2 =>
      simp only [clearExtraChannels, List.getD_cons_succ] at hx
      exact ih (i + 1) c2 (by omega) (by omega) x hx

/-! The claims. -/

/-- C1: the claim states that the cut-band cascade realizes a Butterworth
design of order 2·(slope ordinal + 1) with 2·s+2 poles.  The source passes
order `2 * slope + 1` to the design routine instead (missing parentheses:
1, 3, 5, 7 poles), so the composite response is a Butterworth of odd order
2·s+1, which differs from the claimed even-order response (witnessed at
frequency ratio 2) and contradicts the code's own slope labels
"12..48 db/Oct" (a Butterworth of order n rolls off at 6·n dB/octave). -/
theorem claim_C1_codebug :
    (∀ slope : Slope,
      cutOrderArg slope = 2 * slope.toNat + 1 ∧
      cutOrderArg slope ≠ specCutOrder slope.toNat ∧
      6 * cutOrderArg slope ≠ slopeChoiceDb slope.toNat ∧
      6 * specCutOrder slope.toNat = slopeChoiceDb slope.toNat) ∧
    cutOrderArg Slope.Slope_12 = 1 ∧
    butterworthHighpassMagSq (cutOrderArg Slope.Slope_12) 2
      ≠ butterworthHighpassMagSq (specCutOrder (Slope.toNat Slope.Slope_12)) 2 ∧
    butterworthLowpassMagSq (cutOrderArg Slope.Slope_12) 2
      ≠ butterworthLowpassMagSq (specCutOrder (Slope.toNat Slope.Slope_12)) 2 := by
  refine ⟨?_, by decide, ?_, ?_⟩
  · intro slope
    cases slope <;> exact ⟨by decide, by decide, by decide, by decide⟩
  · norm_num [butterworthHighpassMagSq, cutOrderArg, specCutOrder, Slope.toNat]
  · norm_num [butterworthLowpassMagSq, cutOrderArg, specCutOrder, Slope.toNat]

/-- C2: the claim says both coordinators test-and-clear a dirty flag on
every tick and rebuild coefficients iff it was set.  This holds for the
visualization chain (timerCallback): the tick rebuilds exactly when the
flag was set, the flag is clear afterwards, and nothing changes when it
was clear.  The audio-side part of the claim is false: processBlock calls
updateFilters unconditionally, so the audio tick always rebuilds. -/
theorem claim_C2 (F : CoeffFactories) (s : ChainSettings) (sr : ℚ)
    (v : VisCoordinator) (l r : MonoConfig) :
    ((timerCallback F s sr v).2 = v.parametersChanged) ∧
    (v.parametersChanged = false → (timerCallback F s sr v).1 = v) ∧
    (v.parametersChanged = true →
      (timerCallback F s sr v).1 = ⟨false, timerCallbackBody F s sr v.monoChain⟩) ∧
    ((audioBlockTick F s sr l r).2 = true) := by
  obtain ⟨flag, chain⟩ := v
  cases flag <;> simp [timerCallback, audioBlockTick]

/-- C2 counterexample: an audio-block tick taken immediately after a
previous tick with the same settings — so no parameter change was flagged
in between (the processor has no dirty flag at all) — still reports a
coefficient rebuild and reinstalls the very same configuration,
contradicting "coefficients are installed if and only if the flag was
set". -/
theorem claim_C2_counterexample :
    ((audioBlockTick constFactories defaultSettings 44100
        (updateFilters constFactories defaultSettings 44100 defaultMonoConfig defaultMonoConfig).1
        (updateFilters constFactories defaultSettings 44100 defaultMonoConfig defaultMonoConfig).2).2
      = true) ∧
    ((audioBlockTick constFactories defaultSettings 44100
        (updateFilters constFactories defaultSettings 44100 defaultMonoConfig defaultMonoConfig).1
        (updateFilters constFactories defaultSettings 44100 defaultMonoConfig defaultMonoConfig).2).1
      = updateFilters constFactories defaultSettings 44100 defaultMonoConfig defaultMonoConfig) := by
  exact ⟨rfl, by decide⟩

/-- C2 witness: the visualization tick at a set flag installs the rebuilt
chain and clears the flag; at a clear flag it leaves the state untouched. -/
theorem claim_C2_witness :
    ((timerCallback constFactories defaultSettings 44100 ⟨true, defaultMonoConfig⟩).1
      = ⟨false, timerCallbackBody constFactories defaultSettings 44100 defaultMonoConfig⟩) ∧
    ((timerCallback constFactories defaultSettings 44100 ⟨false, defaultMonoConfig⟩).1
      = ⟨false, defaultMonoConfig⟩) :=
  ⟨(claim_C2 constFactories defaultSettings 44100 ⟨true, defaultMonoConfig⟩
      defaultMonoConfig defaultMonoConfig).2.2.1 rfl,
   (claim_C2 constFactories defaultSettings 44100 ⟨false, defaultMonoConfig⟩
      defaultMonoConfig defaultMonoConfig).2.1 rfl⟩

/-- C3: after `updateCutFilter` with slope ordinal s, exactly s+1 of the 4
stages are enabled, namely stages 0..s; every other stage is bypassed, and
a bypassed stage is the identity both in processing (sample and filter
history pass through unchanged) and in response evaluation (its magnitude
factor is 1). -/
theorem claim_C3 (ch : CutConfig) (coefficients : Fin 4 → BiquadCoeffs)
    (slope : Slope) :
    (((List.finRange 4).filter
        fun i => !(updateCutFilter ch coefficients slope).bypAt i).length
      = slope.toNat + 1) ∧
    (∀ i : Fin 4,
      (updateCutFilter ch coefficients slope).bypAt i = false ↔ i.val ≤ slope.toNat) ∧
    (∀ i : Fin 4, (updateCutFilter ch coefficients slope).bypAt i = true →
      (∀ (st : ℚ × ℚ) (x : ℚ),
        runStage ((updateCutFilter ch coefficients slope).bypAt i)
          ((updateCutFilter ch coefficients slope).coeffAt i) st x = (x, st)) ∧
      (∀ m : ℚ, magFactor ((updateCutFilter ch coefficients slope).bypAt i) m = 1)) := by
  refine ⟨?_, ?_, ?_⟩
  · simp only [updateCutFilter_bypAt]
    cases slope <;> decide
  · intro i
    rw [updateCutFilter_bypAt]
    simp only [decide_eq_false_iff_not, not_lt]
  · intro i hb
    refine ⟨fun st x => ?_, fun m => ?_⟩
    · rw [hb]
      simp [runStage]
    · rw [hb]
      simp [magFactor]

/-- C3 witness: with slope ordinal 1 (Slope_24), stage 3 is bypassed and
acts as the identity on a concrete sample and history. -/
theorem claim_C3_witness :
    ((updateCutFilter defaultCutConfig sampleCoeffs Slope.Slope_24).bypAt 3 = true) ∧
    (runStage ((updateCutFilter defaultCutConfig sampleCoeffs Slope.Slope_24).bypAt 3)
        ((updateCutFilter defaultCutConfig sampleCoeffs Slope.Slope_24).coeffAt 3)
        (1, 2) 5 = (5, (1, 2))) ∧
    (magFactor ((updateCutFilter defaultCutConfig sampleCoeffs Slope.Slope_24).bypAt 3) 7 = 1) :=
  ⟨by decide,
   ((claim_C3 defaultCutConfig sampleCoeffs Slope.Slope_24).2.2 3 (by decide)).1 (1, 2) 5,
   ((claim_C3 defaultCutConfig sampleCoeffs Slope.Slope_24).2.2 3 (by decide)).2 7⟩

/-- C4: the linear magnitude the paint loop accumulates is the product of
the magnitudes of exactly the non-bypassed stages (peak plus each enabled
low-cut and high-cut stage), bypassed stages contributing the factor 1;
and wherever the conversion's -100 dB floor is not hit, the decibel result
is 20·log10 of that product. -/
theorem claim_C4 (log10 : ℚ → ℚ) (cfg : MonoConfig) (peakMag : ℚ)
    (lowMag highMag : Fin 4 → ℚ) :
    (chainLinearMag cfg peakMag lowMag highMag
      = specChainLinearMag cfg peakMag lowMag highMag) ∧
    (0 < chainLinearMag cfg peakMag lowMag highMag →
      -100 ≤ 20 * log10 (chainLinearMag cfg peakMag lowMag highMag) →
      evaluateResponseDb log10 cfg peakMag lowMag highMag
        = 20 * log10 (specChainLinearMag cfg peakMag lowMag highMag)) := by
  refine ⟨chainLinearMag_eq_spec cfg peakMag lowMag highMag, fun hpos hge => ?_⟩
  unfold evaluateResponseDb gainToDecibels
  rw [if_pos hpos, max_eq_right hge, chainLinearMag_eq_spec]

/-- C4 witness: a flat chain with unit magnitudes, evaluated with a
concrete log10 stand-in. -/
theorem claim_C4_witness :
    (0 < chainLinearMag defaultMonoConfig 1 oneMags oneMags) ∧
    (-100 ≤ 20 * zeroLog (chainLinearMag defaultMonoConfig 1 oneMags oneMags)) ∧
    (evaluateResponseDb zeroLog defaultMonoConfig 1 oneMags oneMags
      = 20 * zeroLog (specChainLinearMag defaultMonoConfig 1 oneMags oneMags)) :=
  ⟨by norm_num [chainLinearMag, defaultMonoConfig, defaultCutConfig, oneMags],
   by norm_num [zeroLog],
   (claim_C4 zeroLog defaultMonoConfig 1 oneMags oneMags).2
     (by norm_num [chainLinearMag, defaultMonoConfig, defaultCutConfig, oneMags])
     (by norm_num [zeroLog])⟩

/-- C5: applying `updateCutFilter` with one coefficient array at slope n,
then slope m, then slope n again leaves every stage's bypass flag and every
active stage's coefficients identical to those after the first application
at slope n. -/
theorem claim_C5 (ch : CutConfig) (coefficients : Fin 4 → BiquadCoeffs)
    (n m : Slope) (i : Fin 4) :
    ((updateCutFilter (updateCutFilter (updateCutFilter ch coefficients n)
        coefficients m) coefficients n).bypAt i
      = (updateCutFilter ch coefficients n).bypAt i) ∧
    ((updateCutFilter ch coefficients n).bypAt i = false →
      (updateCutFilter (updateCutFilter (updateCutFilter ch coefficients n)
          coefficients m) coefficients n).coeffAt i
        = (updateCutFilter ch coefficients n).coeffAt i) := by
  constructor
  · simp [updateCutFilter_bypAt]
  · intro h
    rw [updateCutFilter_bypAt] at h
    have hle : i.val ≤ n.toNat := by
      simp only [decide_eq_false_iff_not, not_lt] at h
      exact h
    simp [updateCutFilter_coeffAt, hle]

/-- C5 witness: round trip slope 24 → 48 → 24 restores stage 1 exactly. -/
theorem claim_C5_witness :
    ((updateCutFilter defaultCutConfig sampleCoeffs Slope.Slope_24).bypAt 1 = false) ∧
    ((updateCutFilter (updateCutFilter (updateCutFilter defaultCutConfig sampleCoeffs
        Slope.Slope_24) sampleCoeffs Slope.Slope_48) sampleCoeffs Slope.Slope_24).coeffAt 1
      = (updateCutFilter defaultCutConfig sampleCoeffs Slope.Slope_24).coeffAt 1) :=
  ⟨by decide,
   (claim_C5 defaultCutConfig sampleCoeffs Slope.Slope_24 Slope.Slope_48 1).2 (by decide)⟩

/-- C6: the response evaluation is total and never falls below the -100 dB
conversion floor; a non-positive (in particular zero) linear magnitude
yields exactly the well-defined large-negative value -100 rather than a
minus infinity. -/
theorem claim_C6 (log10 : ℚ → ℚ) (cfg : MonoConfig) (peakMag : ℚ)
    (lowMag highMag : Fin 4 → ℚ)  :
    (-100 ≤ evaluateResponseDb log10 cfg peakMag lowMag highMag) ∧
    (chainLinearMag cfg peakMag lowMag highMag ≤ 0 →
      evaluateResponseDb log10 cfg peakMag lowMag highMag = -100) := by
  unfold evaluateResponseDb gainToDecibels
  constructor
  · split
    · exact le_max_left _ _
    · exact le_refl _
  · intro h
    rw [if_neg (not_lt.mpr h)]

/-- C6 witness: a zero peak magnitude drives the linear magnitude to zero
and the decibel result to the -100 floor. -/
theorem claim_C6_witness :
    (chainLinearMag defaultMonoConfig 0 oneMags oneMags ≤ 0) ∧
    (evaluateResponseDb zeroLog defaultMonoConfig 0 oneMags oneMags = -100) :=
  ⟨by norm_num [chainLinearMag, defaultMonoConfig, defaultCutConfig, oneMags],
   (claim_C6 zeroLog defaultMonoConfig 0 oneMags oneMags).2
     (by norm_num [chainLinearMag, defaultMonoConfig, defaultCutConfig, oneMags])⟩

/-- C7: processBlock is dual-mono with no cross-channel coupling: the
output of channel 0 is unchanged under any change of channel 1's input,
and the output of channel 1 is unchanged under any change of channel 0's
input. -/
theorem claim_C7 (F : CoeffFactories) (s : ChainSettings) (sr : ℚ)
    (inCh outCh : Nat) (p : ProcessorState) (a a2 b b2 : List ℚ)
    (rest : List (List ℚ)) :
    ((processBlock F s sr inCh outCh p (a :: b :: rest)).1.getD 0 []
      = (processBlock F s sr inCh outCh p (a :: b2 :: rest)).1.getD 0 []) ∧
    ((processBlock F s sr inCh outCh p (a :: b :: rest)).1.getD 1 []
      = (processBlock F s sr inCh outCh p (a2 :: b :: rest)).1.getD 1 []) :=
  ⟨rfl, rfl⟩

/-- C8: the claim says a non-positive width yields an empty sequence and
no error.  The sampling loop does produce the empty sequence, but the
unguarded paint in Source/PluginEditor.cpp then reads the front of that
empty sequence (an out-of-bounds access: there is no element to read,
head? = none); the guarded variant of paint returns early exactly as the
claim describes. -/
theorem claim_C8 (log10 : ℚ → ℚ) (cfg : MonoConfig) (peakMagAt : Nat → ℚ)
    (lowMagAt highMagAt : Nat → Fin 4 → ℚ) :
    (paintMags log10 cfg peakMagAt lowMagAt highMagAt 0 = []) ∧
    ((paintMags log10 cfg peakMagAt lowMagAt highMagAt 0).head? = none) ∧
    (∀ w : ℤ, w ≤ 0 → paintMagsGuarded log10 cfg peakMagAt lowMagAt highMagAt w = []) := by
  refine ⟨rfl, rfl, fun w hw => ?_⟩
  unfold paintMagsGuarded
  rw [if_pos hw]

/-- C8 witness: a negative width on the guarded paint variant. -/
theorem claim_C8_witness :
    ((-3 : ℤ) ≤ 0) ∧
    (paintMagsGuarded zeroLog defaultMonoConfig (fun _ => 1) (fun _ _ => 1)
      (fun _ _ => 1) (-3) = []) :=
  ⟨by decide,
   (claim_C8 zeroLog defaultMonoConfig (fun _ => 1) (fun _ _ => 1) (fun _ _ => 1)).2.2
     (-3) (by decide)⟩

/-- C9: along every sequence of `updateFilters` calls from the initial
(default-constructed, identical) pair of chains, the left and the right
chain remain in identical configuration — equal coefficients and bypass
flags in all 9 slots — because every call installs the same computed
coefficient sets into both chains. -/
theorem claim_C9 (F : CoeffFactories) (trace : List (ChainSettings × ℚ)) :
    (applyUpdateTrace F trace (defaultMonoConfig, defaultMonoConfig)).1
      = (applyUpdateTrace F trace (defaultMonoConfig, defaultMonoConfig)).2 := by
  have key : ∀ (t : List (ChainSettings × ℚ)) (p : MonoConfig × MonoConfig),
      p.1 = p.2 → (applyUpdateTrace F t p).1 = (applyUpdateTrace F t p).2 := by
    intro t
    induction t with
    | nil => intro p h; exact h
    | cons a rest ih =>
      intro p h
      simp only [applyUpdateTrace]
      apply ih
      rw [h]
      exact updateFilters_pair_eq F a.1 a.2 p.2
  exact key trace (defaultMonoConfig, defaultMonoConfig) rfl

/-- C10: in processBlock, every channel whose index lies at or above the
input channel count (and below the output channel count) is cleared to all
zeros, and this clearing is performed on the buffer before the filtering
stage runs on it. -/
theorem claim_C10 (inCh outCh c : Nat) (buffer : List (List ℚ))
    (h1 : inCh ≤ c) (h2 : c < outCh) :
    (∀ x ∈ (clearExtraChannels inCh outCh 0 buffer).getD c [], x = 0) ∧
    (∀ (F : CoeffFactories) (s : ChainSettings) (sr : ℚ) (p : ProcessorState),
      processBlock F s sr inCh outCh p buffer
        = processBlockFilters F s sr p (clearExtraChannels inCh outCh 0 buffer)) :=
  ⟨fun x hx =>
      clearExtraChannels_all_zero inCh outCh buffer 0 c (by omega) (by omega) x hx,
   fun _ _ _ _ => rfl⟩

/-- C10 witness: a 1-in 2-out buffer has its second channel zeroed. -/
theorem claim_C10_witness :
    (1 ≤ 1 ∧ 1 < 2) ∧
    (∀ x ∈ (clearExtraChannels 1 2 0 [[(3 : ℚ)], [4, 5]]).getD 1 [], x = 0) :=
  ⟨by decide, (claim_C10 1 2 1 [[(3 : ℚ)], [4, 5]] (by decide) (by decide)).1⟩

end OloEQ
